import Mathlib

/-!
Verification of the Global Change Notifier and Partial-Sync Subscription
Registration subsystems (realm-object-store). Shallow embedding of
`src/global_notifier.cpp`, `src/sync/partial_sync.cpp` and
`src/subscription_state.hpp` into Lean, followed by theorems settling the
spec's claims about them.
-/

/- ===================== subscription_state.hpp ===================== -/

/-- The five enumerators of `enum class SubscriptionState`
(subscription_state.hpp lines 27-33). -/
inductive SubscriptionState where
  | undefined
  | not_supported
  | error
  | uninitialized
  | initialized
deriving DecidableEq, Repr

/-- `state_to_status_code`: the `(int) state` cast, i.e. each enumerator's
underlying integer value (UNDEFINED = -3 ... INITIALIZED = 1). -/
def state_to_status_code : SubscriptionState → Int
  | .undefined => -3
  | .not_supported => -2
  | .error => -1
  | .uninitialized => 0
  | .initialized => 1

/-- `status_code_to_state`: the switch of subscription_state.hpp lines 35-44,
with `default: return SubscriptionState::UNDEFINED`. -/
def status_code_to_state (status_code : Int) : SubscriptionState :=
  if status_code = -3 then .undefined
  else if status_code = -2 then .not_supported
  else if status_code = -1 then .error
  else if status_code = 0 then .uninitialized
  else if status_code = 1 then .initialized
  else .undefined

/- ===================== partial_sync.cpp: get_query_status ===================== -/

/-- One row of the reserved `__ResultSets` table, restricted to the columns
`get_query_status` reads. -/
structure ResultSetRow where
  name : String
  status : Int
  error_message : String
deriving DecidableEq, Repr

/-- `table->find_first_string(name_col, name)`: the first row whose `name`
column equals `name`, or none. -/
def find_first_by_name (rows : List ResultSetRow) (name : String) : Option ResultSetRow :=
  rows.find? (fun r => r.name = name)

/-- `get_query_status` (partial_sync.cpp lines 91-105). A missing row yields
`(Uninitialized, "")`; otherwise the row's integer `status` is converted with
`static_cast<SubscriptionState>`, which keeps the underlying integer unchanged,
so the first component is that raw integer. -/
def get_query_status (rows : List ResultSetRow) (name : String) : Int × String :=
  match find_first_by_name rows name with
  | none => (state_to_status_code SubscriptionState.uninitialized, "")
  | some r => (r.status, r.error_message)

/-- Modelled from the spec: "`get_query_status(db, name)` reads the row by
`name` and returns `(state, error_message)`, mapping integer `status` through
the fixed code table. A missing row returns `(Uninitialized, \x7b\x7d)`."
This is the spec's version of `get_query_status` for refinement comparison;
the code's version is `get_query_status` above. -/
def get_query_status_specced (rows : List ResultSetRow) (name : String) :
    SubscriptionState × String :=
  match find_first_by_name rows name with
  | none => (SubscriptionState.uninitialized, "")
  | some r => (status_code_to_state r.status, r.error_message)

/- ===================== global_notifier.cpp: data model ===================== -/

/-- The fields of `Realm::Config` that the notifier core reads or writes:
the file path, sync URL/token identity, and the cache flag. -/
structure RealmConfig where
  path : String
  sync_server_url : String
  cache : Bool
deriving DecidableEq, Repr

/-- A `SharedRealm` as the core uses it: its config, the version its read
transaction is pinned at (`get_version_of_current_transaction`), and whether
`read_group().is_empty()`. -/
structure SharedRealm where
  config : RealmConfig
  version : Nat
  group_is_empty : Bool
deriving DecidableEq, Repr

/-- `CollectionChangeSet` restricted to the row index sets the notifier
consumes; `empty()` holds when all three are empty. -/
structure CollectionChangeSet where
  insertions : List Nat
  deletions : List Nat
  modifications : List Nat
deriving DecidableEq, Repr

/-- `CollectionChangeSet::empty()`. -/
def CollectionChangeSet.isEmptyCC (c : CollectionChangeSet) : Bool :=
  c.insertions.isEmpty && c.deletions.isEmpty && c.modifications.isEmpty

/- ===================== AdminRealmManager::start ===================== -/

/-- The body of the notification callback installed by
`AdminRealmManager::start` (global_notifier.cpp lines 63-78), for one
delivery: given `m_first`, the current `RealmFile` table rows (`(id, path)`
pairs) and the delivered change-set, it returns the list of `(id, path)`
arguments the registration callback is invoked with, in order, and the new
value of `m_first`. -/
def admin_start_callback (first : Bool) (table : List (String × String))
    (changes : CollectionChangeSet) : List (String × String) × Bool :=
  if changes.isEmptyCC || first then
    (table, false)
  else
    (changes.insertions.filterMap (fun i => table.get? i), first)

/- ===================== GlobalNotifier::calculate ===================== -/

/-- Modelled from the spec: `ObjectStore::object_type_for_table_name`
(object_store.cpp is not part of this source subset). Per the spec,
`table_name_for` "returns the logical object-type name for an internal table,
or none for reserved tables"; internal object tables carry the reserved
prefix, which is stripped. -/
def object_type_for_table_name (table_name : String) : Option String :=
  if table_name.data.take 6 = "class_".data then some ⟨table_name.data.drop 6⟩ else none

/-- One entry of the per-table change tracker produced by `advance` with
`track_all`, paired with the group's name for that table
(`g.get_table_name(i)`): whether `change.empty()`, and the change-set
`finalize()` would yield. -/
structure TableEntry where
  table_name : String
  change_is_empty : Bool
  change : CollectionChangeSet
deriving DecidableEq, Repr

/-- Lines 156-166 of `GlobalNotifier::calculate`: build the
`per_table_changes` map from the tracker entries, keeping only non-empty
entries whose table name resolves to an object-type name. -/
def build_changes (tables : List TableEntry) : List (String × CollectionChangeSet) :=
  tables.filterMap (fun t =>
    if t.change_is_empty then none
    else match object_type_for_table_name t.table_name with
      | some name => some (name, t.change)
      | none => none)

/-- A `RealmToCalculate` work-queue job: the realm handle pinned at the
commit's old version, the commit's new version, and the tracker entries that
`advance(sg2, info, target_version)` populates for this `(from, to)` pair
(the advance primitive is deterministic, so they are data of the job). -/
structure RealmToCalculate where
  realm : SharedRealm
  target_version : Nat
  info_tables : List TableEntry
deriving DecidableEq, Repr

/-- A `GlobalNotifier::ChangeNotification`: old version (none is the unset
`VersionID{}` sentinel), new version, the realm handle pinned at the old
version, and the per-table change map. -/
structure ChangeNotification where
  old_version : Option Nat
  new_version : Nat
  realm : SharedRealm
  changes : List (String × CollectionChangeSet)
deriving DecidableEq, Repr

/-- The per-job body of `GlobalNotifier::calculate` (lines 139-177): compute
`changes`; if `changes` is empty and the job realm's group is non-empty, drop
the job (`continue`); otherwise produce the notification pushed onto the
delivery queue, with `old` = the job realm's pinned version and `new` = the
job's target version. -/
def calculate_job (next : RealmToCalculate) : Option ChangeNotification :=
  let changes := build_changes next.info_tables
  if changes.isEmpty && !next.realm.group_is_empty then
    none
  else
    some { old_version := some next.realm.version
           new_version := next.target_version
           realm := next.realm
           changes := changes }

/- ===================== GlobalNotifier::register_realm ===================== -/

/-- The environment `register_realm` opens realms in: for each realm id, the
realm `Realm::make_shared_realm(get_config(id, name))` yields — its pinned
current version and whether its read group is empty. -/
def RealmEnv : Type := String → SharedRealm

/-- The notifier state touched by `register_realm`: the keys of
`m_listen_entries`, the delivery queue `m_pending_deliveries` (in push
order, front first), the set of realm ids whose coordinator got a
transaction callback installed, and — to track the externally visible
side effect — the list of names on which `m_target->filter_callback` was
invoked, in call order. -/
structure NotifierState where
  listen_entries : List String
  pending_deliveries : List ChangeNotification
  txn_callbacks : List String
  filter_calls : List String
deriving DecidableEq, Repr

/-- The notifier state before any registration. -/
def NotifierState.initial : NotifierState :=
  { listen_entries := [], pending_deliveries := [], txn_callbacks := [], filter_calls := [] }

/-- The seed notification pushed at line 198 of `register_realm`:
`{{}, version, realm, {}}` — unset old version, the realm's current version,
the opened realm handle, and an empty change map. -/
def seed_notification (realm : SharedRealm) : ChangeNotification :=
  { old_version := none
    new_version := realm.version
    realm := realm
    changes := [] }

/-- `GlobalNotifier::register_realm` (global_notifier.cpp lines 181-214):
return if the id is already listened to; invoke the filter and return if it
rejects; record the listen entry; open the realm and, if its group is
non-empty, push a seed notification; install the transaction callback on the
coordinator. `filter` is the externally supplied `filter_callback` and `env`
resolves `make_shared_realm(get_config(id, name))`. -/
def register_realm (env : RealmEnv) (filter : String → Bool)
    (s : NotifierState) (realm_id realm_name : String) : NotifierState :=
  if realm_id ∈ s.listen_entries then s
  else
    let s1 := { s with filter_calls := s.filter_calls ++ [realm_name] }
    if !filter realm_name then s1
    else
      let s2 := { s1 with listen_entries := s1.listen_entries ++ [realm_id]
                          txn_callbacks := s1.txn_callbacks ++ [realm_id] }
      let realm := env realm_id
      if realm.group_is_empty then s2
      else
        { s2 with pending_deliveries := s2.pending_deliveries ++ [seed_notification realm] }

/- ===================== Per-file delivery pipeline ===================== -/

/-- The sequence of notifications placed on the delivery queue for one
watched file, in push order: the optional registration seed (pushed by
`register_realm` when the group is non-empty) followed by the worker's output
for each queued job, jobs being processed FIFO by the single worker thread
and dropped jobs contributing nothing. -/
def file_pipeline (seed : Option SharedRealm) (jobs : List RealmToCalculate) :
    List ChangeNotification :=
  (match seed with
   | some realm => [seed_notification realm]
   | none => []) ++ jobs.filterMap calculate_job

/-- The commit stream feeding one file's jobs is version-chained: every job
covers a non-decreasing version span, and consecutive jobs observed by the
coordinator's transaction callback abut (`next.from = previous.to`). -/
def jobs_chained (jobs : List RealmToCalculate) : Prop :=
  (∀ j ∈ jobs, j.realm.version ≤ j.target_version) ∧
  List.Chain' (fun a b => b.realm.version = a.target_version) jobs

/- ===================== ChangeNotification snapshots ===================== -/

/-- `Realm::get_shared_realm(config)` for the core's uncached configs: a
fresh realm on that config with no read transaction begun yet (pinned
version 0 until `begin_read`), on a file whose group emptiness is that of
the source realm's file. -/
def get_shared_realm (config : RealmConfig) (group_is_empty : Bool) : SharedRealm :=
  { config := config, version := 0, group_is_empty := group_is_empty }

/-- `Realm::Internal::begin_read(realm, version)`: pin the realm's read
transaction at `version`. -/
def begin_read (realm : SharedRealm) (version : Nat) : SharedRealm :=
  { realm with version := version }

/-- `ChangeNotification::get_old_realm` (lines 261-271): nullptr when
`m_old_version` is the unset sentinel; otherwise a fresh realm on the
notification's config with the cache flag cleared, pinned at the old
version. -/
def ChangeNotification.get_old_realm (n : ChangeNotification) : Option SharedRealm :=
  match n.old_version with
  | none => none
  | some v =>
      let config := { n.realm.config with cache := false }
      some (begin_read (get_shared_realm config n.realm.group_is_empty) v)

/-- `ChangeNotification::get_new_realm` (lines 273-280): a fresh realm on the
notification's config with the cache flag cleared, pinned at the new
version. -/
def ChangeNotification.get_new_realm (n : ChangeNotification) : SharedRealm :=
  let config := { n.realm.config with cache := false }
  begin_read (get_shared_realm config n.realm.group_is_empty) n.new_version

/- ===================== GlobalNotifier lifecycle ===================== -/

/-- The lifecycle state the destructor touches: the `m_shutdown` flag,
whether `m_work_thread` is joinable (it is default-constructed, hence not
joinable, until `start()` assigns it), and whether the work-queue condition
variable has been notified. -/
structure NotifierLifecycle where
  shutdown : Bool
  work_thread_joinable : Bool
  cv_notified : Bool
deriving DecidableEq, Repr

/-- A freshly constructed `GlobalNotifier` (constructor, lines 103-110): no
shutdown requested, no worker thread started. -/
def NotifierLifecycle.constructed : NotifierLifecycle :=
  { shutdown := false, work_thread_joinable := false, cv_notified := false }

/-- `GlobalNotifier::start` (lines 123-129) as far as the lifecycle state is
concerned: it launches the worker thread, making `m_work_thread` joinable. -/
def NotifierLifecycle.start (s : NotifierLifecycle) : NotifierLifecycle :=
  { s with work_thread_joinable := true }

/-- `GlobalNotifier::~GlobalNotifier` (lines 112-121): set `m_shutdown`,
notify the work-queue condition variable, and join the worker thread only if
it is joinable. Returns the final state and whether `join()` was called. -/
def NotifierLifecycle.destructor (s : NotifierLifecycle) : NotifierLifecycle × Bool :=
  let s1 := { s with shutdown := true, cv_notified := true }
  if s1.work_thread_joinable then (s1, true) else (s1, false)

/- ===================== partial_sync.cpp: register_query observer ===================== -/

/-- The inputs one invocation of the notification callback installed by
`register_query` (partial_sync.cpp lines 151-175) reads: the incoming
`std::exception_ptr` (some message when set), and the observed row's
`status`, `error_message` and dereferenced `matches_property` list. -/
structure SubObservation where
  exn : Option String
  status : Int
  error_message : String
  match_list : List Nat
deriving DecidableEq, Repr

/-- One delivery to the user callback of `register_query`: the results
argument (none models the empty `Results()` placeholder) and the error
argument (none models `nullptr`). -/
structure SubDelivery where
  results : Option (List Nat)
  error : Option String
deriving DecidableEq, Repr

/-- One invocation of the `register_query` notification callback, given
whether the self-owning observer is still attached (`object` not yet reset):
an incoming error delivers `(Results(), error)` and resets; status 0 does
nothing; status 1 delivers `(match_list, nullptr)` and resets; any other status
delivers `(Results(), runtime_error(error_message))` and resets. Once the
observer has reset itself it is detached and never invoked again (modelled
from the spec for the `NotificationWrapper` self-ownership pattern: "on
terminal delivery releases that reference, collapsing the cycle"). Returns
the new attached flag and the delivery made, if any. -/
def observer_step (attached : Bool) (o : SubObservation) : Bool × Option SubDelivery :=
  if !attached then (false, none)
  else
    match o.exn with
    | some e => (false, some { results := none, error := some e })
    | none =>
      if o.status = 0 then (true, none)
      else if o.status = 1 then (false, some { results := some o.match_list, error := none })
      else (false, some { results := none, error := some o.error_message })

/-- The deliveries the user callback receives over a sequence of observed
changes, starting from a given attachment state. -/
def observer_run (attached : Bool) : List SubObservation → List SubDelivery
  | [] => []
  | o :: rest =>
    let step := observer_step attached o
    (match step.2 with
     | some d => [d]
     | none => []) ++ observer_run step.1 rest

/- ===================== Ordering helpers and sample inputs ===================== -/

/-- The version `get_old_realm` would pin, defaulting to the new version for
seed notifications whose old version is unset. -/
def notif_old_key (n : ChangeNotification) : Nat :=
  n.old_version.getD n.new_version

/-- The ordering relation underlying per-file delivery order: the earlier
notification's new version is at most the later one's old-side and new-side
versions. -/
def notif_le (a b : ChangeNotification) : Prop :=
  a.new_version ≤ notif_old_key b ∧ a.new_version ≤ b.new_version

/-- The concurrency assumptions the spec derives per-file ordering from:
the job stream is version-chained (commit callbacks run in commit order and
the work queue is FIFO), and a registration seed precedes the first observed
commit. -/
def pipeline_ordered_input (seed : Option SharedRealm) (jobs : List RealmToCalculate) : Prop :=
  jobs_chained jobs ∧
  ∀ realm j, seed = some realm → jobs.head? = some j → realm.version ≤ j.realm.version

/-- A sample config for concrete evaluations. -/
def sample_config : RealmConfig :=
  { path := "realms/a.realm", sync_server_url := "u/a", cache := false }

/-- A sample realm pinned at version 2 with a non-empty group. -/
def sample_realm : SharedRealm :=
  { config := sample_config, version := 2, group_is_empty := false }

/-- A sample delivered notification with the old version set. -/
def sample_old_notification : ChangeNotification :=
  { old_version := some 2, new_version := 3, realm := sample_realm, changes := [] }

/-- The empty collection change-set. -/
def empty_changeset : CollectionChangeSet :=
  { insertions := [], deletions := [], modifications := [] }

/-- A change-set recording one inserted row. -/
def one_insertion_changeset : CollectionChangeSet :=
  { insertions := [0], deletions := [], modifications := [] }

/-- A job whose source realm has an empty group at the from-version and whose
advance produced no tracked changes (e.g. a commit touching only reserved
tables of a still-empty database). -/
def empty_group_job : RealmToCalculate :=
  { realm := { config := sample_config, version := 3, group_is_empty := true }
    target_version := 4
    info_tables := [] }

/-- The notification `calculate` pushes for `empty_group_job`. -/
def empty_group_notification : ChangeNotification :=
  { old_version := some 3
    new_version := 4
    realm := empty_group_job.realm
    changes := [] }

/-- The filter that rejects every name. -/
def reject_all : String → Bool := fun _ => false

/-- A sample environment resolving every id to `sample_realm`. -/
def sample_env : RealmEnv := fun _ => sample_realm

/-- A job from version 0 to 1 with one tracked insertion in object table T. -/
def chain_job1 : RealmToCalculate :=
  { realm := { config := sample_config, version := 0, group_is_empty := false }
    target_version := 1
    info_tables := [{ table_name := "class_T", change_is_empty := false,
                      change := one_insertion_changeset }] }

/-- A job from version 1 to 2 whose advance tracked no changes on a non-empty
group: the worker suppresses it. -/
def chain_job2 : RealmToCalculate :=
  { realm := { config := sample_config, version := 1, group_is_empty := false }
    target_version := 2
    info_tables := [] }

/-- A job from version 2 to 3 with one tracked insertion in object table T. -/
def chain_job3 : RealmToCalculate :=
  { realm := { config := sample_config, version := 2, group_is_empty := false }
    target_version := 3
    info_tables := [{ table_name := "class_T", change_is_empty := false,
                      change := one_insertion_changeset }] }

/-- The notification the worker pushes for `chain_job1`. -/
def chain_notification1 : ChangeNotification :=
  { old_version := some 0, new_version := 1, realm := chain_job1.realm,
    changes := [("T", one_insertion_changeset)] }

/-- The notification the worker pushes for `chain_job3`. -/
def chain_notification3 : ChangeNotification :=
  { old_version := some 2, new_version := 3, realm := chain_job3.realm,
    changes := [("T", one_insertion_changeset)] }

/-- A sample observation with terminal success status and two matched rows. -/
def success_observation : SubObservation :=
  { exn := none, status := 1, error_message := "", match_list := [5, 9] }

/-- `notif_le` is transitive: the old-side bound composes through the
new-side bound. -/
instance : IsTrans ChangeNotification notif_le :=
  ⟨fun _ _ _ hab hbc => ⟨le_trans hab.2 hbc.1, le_trans hab.2 hbc.2⟩⟩

/- ===================== Theorems ===================== -/

/-- Helper: what `calculate_job` producing a notification pins: the old
version is the job realm's version, the new version is the job's target, and
the changes are those built from the tracker. -/
theorem calculate_job_eq_some {j : RealmToCalculate} {n : ChangeNotification}
    (h : calculate_job j = some n) :
    n.old_version = some j.realm.version ∧ n.new_version = j.target_version ∧
    n.changes = build_changes j.info_tables ∧ n.realm = j.realm := by
  unfold calculate_job at h
  by_cases hc : (build_changes j.info_tables).isEmpty && !j.realm.group_is_empty
  · simp [hc] at h
  · simp [hc] at h
    subst h
    exact ⟨rfl, rfl, rfl, rfl⟩

/-- C9: the subscription status codecs round-trip — decoding the integer code
of any `SubscriptionState` gives the state back — and `status_code_to_state`
is total on the integers, sending every integer outside
`{-3, -2, -1, 0, 1}` to UNDEFINED. -/
theorem subscription_codecs_round_trip :
    (∀ s : SubscriptionState, status_code_to_state (state_to_status_code s) = s) ∧
    (∀ n : Int, n ≠ -3 → n ≠ -2 → n ≠ -1 → n ≠ 0 → n ≠ 1 →
      status_code_to_state n = SubscriptionState.undefined) := by
  constructor
  · intro s; cases s <;> rfl
  · intro n h3 h2 h1 h0 hone
    unfold status_code_to_state
    simp [h3, h2, h1, h0, hone]

/-- Witness for C9 at the state ERROR and the out-of-range code 7. -/
theorem subscription_codecs_round_trip_witness :
    status_code_to_state (state_to_status_code SubscriptionState.error) =
      SubscriptionState.error ∧
    status_code_to_state 7 = SubscriptionState.undefined :=
  ⟨subscription_codecs_round_trip.1 SubscriptionState.error,
   subscription_codecs_round_trip.2 7 (by decide) (by decide) (by decide) (by decide)
     (by decide)⟩

/-- C7 counterexample: `get_query_status` does not map the stored status
through the fixed code table — it `static_cast`s it, keeping the raw integer.
On a row with status 5 the code returns 5 with the row's message, while the
code table would map 5 to UNDEFINED (code -3): the claim's mapping disagrees
with the code at this input. -/
theorem get_query_status_static_cast_counterexample :
    get_query_status [{ name := "q", status := 5, error_message := "boom" }] "q" =
      (5, "boom") ∧
    get_query_status_specced [{ name := "q", status := 5, error_message := "boom" }] "q" =
      (SubscriptionState.undefined, "boom") ∧
    state_to_status_code SubscriptionState.undefined ≠ 5 := by
  refine ⟨?_, ?_, by decide⟩ <;> rfl

/-- C7 (amended): `get_query_status(db, name)` returns `(Uninitialized, "")`
when no `__ResultSets` row named `name` exists; when the row exists it
returns the row's raw integer status (the `static_cast` keeps the underlying
integer) together with the row's `error_message`. On statuses in
`{-3, -2, -1, 0, 1}` the raw integer coincides with the fixed code table's
round-trip, but other integers are passed through unchanged rather than
mapped to Undefined. -/
theorem get_query_status_characterization :
    (∀ rows name, find_first_by_name rows name = none →
      get_query_status rows name = (0, "")) ∧
    (∀ rows name r, find_first_by_name rows name = some r →
      get_query_status rows name = (r.status, r.error_message)) ∧
    (∀ n : Int, (n = -3 ∨ n = -2 ∨ n = -1 ∨ n = 0 ∨ n = 1) →
      state_to_status_code (status_code_to_state n) = n) := by
  refine ⟨?_, ?_, ?_⟩
  · intro rows name h
    unfold get_query_status
    rw [h]
    rfl
  · intro rows name r h
    unfold get_query_status
    rw [h]
  · intro n h
    rcases h with h | h | h | h | h <;> subst h <;> rfl

/-- Witness for C7 (amended): a present row with status -2 and a missing
row. -/
theorem get_query_status_characterization_witness :
    get_query_status [{ name := "q", status := -2, error_message := "ns" }] "q" =
      (-2, "ns") ∧
    get_query_status [] "q" = (0, "") ∧
    state_to_status_code (status_code_to_state (-2)) = -2 :=
  ⟨get_query_status_characterization.2.1
      [{ name := "q", status := -2, error_message := "ns" }] "q"
      { name := "q", status := -2, error_message := "ns" } (by rfl),
   get_query_status_characterization.1 [] "q" (by rfl),
   get_query_status_characterization.2.2 (-2) (by decide)⟩

/-- C6: on every delivered notification, `get_old_realm` returns none exactly
when the old version is the unset sentinel; when the old version is set, the
returned fresh handle is uncached and pinned at the old version; and
`get_new_realm` always returns a fresh uncached handle pinned at the new
version. -/
theorem change_notification_snapshots (n : ChangeNotification) :
    (n.get_old_realm = none ↔ n.old_version = none) ∧
    (∀ v, n.old_version = some v →
      n.get_old_realm.map SharedRealm.version = some v ∧
      n.get_old_realm.map (fun h => h.config.cache) = some false) ∧
    n.get_new_realm.version = n.new_version ∧
    n.get_new_realm.config.cache = false := by
  refine ⟨?_, ?_, rfl, rfl⟩
  · cases hv : n.old_version <;>
      simp [ChangeNotification.get_old_realm, hv]
  · intro v hv
    simp [ChangeNotification.get_old_realm, hv, begin_read, get_shared_realm]

/-- Witness for C6 at a notification with old version 2 and new version 3. -/
theorem change_notification_snapshots_witness :
    sample_old_notification.get_old_realm.map SharedRealm.version = some 2 ∧
    sample_old_notification.get_old_realm.map (fun h => h.config.cache) = some false :=
  (change_notification_snapshots sample_old_notification).2.1 2 (by rfl)

/-- C10: destroying a `GlobalNotifier` that was never started sets the
shutdown flag and signals the work-queue condition variable but does not call
`join()` (the thread is not joinable), so destruction cannot block on a
non-existent worker thread; after `start()` the destructor does join; in
general `join()` is called exactly when the worker thread is joinable, and
the shutdown flag and signal always happen. -/
theorem destructor_without_start_is_safe :
    NotifierLifecycle.destructor NotifierLifecycle.constructed =
      ({ shutdown := true, work_thread_joinable := false, cv_notified := true }, false) ∧
    NotifierLifecycle.destructor (NotifierLifecycle.start NotifierLifecycle.constructed) =
      ({ shutdown := true, work_thread_joinable := true, cv_notified := true }, true) ∧
    (∀ s : NotifierLifecycle,
      (s.destructor.1.shutdown = true ∧ s.destructor.1.cv_notified = true) ∧
      s.destructor.2 = s.work_thread_joinable) := by
  refine ⟨rfl, rfl, ?_⟩
  intro s
  unfold NotifierLifecycle.destructor
  by_cases h : s.work_thread_joinable <;> simp [h]

/-- Helper: a register call whose id is already listened to returns without
changing anything. -/
theorem register_realm_already_listening {env : RealmEnv} {filter : String → Bool}
    {s : NotifierState} {id name : String} (h : id ∈ s.listen_entries) :
    register_realm env filter s id name = s := by
  unfold register_realm
  rw [if_pos h]

/-- Helper: when the filter accepts, registration records the listen
entry. -/
theorem register_realm_records {env : RealmEnv} {filter : String → Bool}
    {s : NotifierState} {id name : String} (hf : filter name = true) :
    id ∈ (register_realm env filter s id name).listen_entries := by
  by_cases hmem : id ∈ s.listen_entries
  · rw [register_realm_already_listening hmem]
    exact hmem
  · unfold register_realm
    rw [if_neg hmem]
    by_cases hge : (env id).group_is_empty <;> simp [hf, hge]

/-- C5: `register_realm(id, name)` called twice leaves the notifier where one
call left it — the watch-entry set, the delivery queue (hence the seed
notifications) and the installed transaction callbacks after the second call
equal those after the first. -/
theorem register_realm_idempotent (env : RealmEnv) (filter : String → Bool)
    (s : NotifierState) (id name : String) :
    (register_realm env filter (register_realm env filter s id name) id name).listen_entries =
      (register_realm env filter s id name).listen_entries ∧
    (register_realm env filter (register_realm env filter s id name) id name).pending_deliveries =
      (register_realm env filter s id name).pending_deliveries ∧
    (register_realm env filter (register_realm env filter s id name) id name).txn_callbacks =
      (register_realm env filter s id name).txn_callbacks := by
  by_cases hf : filter name = true
  · rw [register_realm_already_listening (register_realm_records hf)]
    exact ⟨rfl, rfl, rfl⟩
  · have hfb : filter name = false := by
      cases h : filter name
      · rfl
      · exact absurd h hf
    by_cases hmem : id ∈ s.listen_entries
    · rw [register_realm_already_listening hmem, register_realm_already_listening hmem]
      exact ⟨rfl, rfl, rfl⟩
    · unfold register_realm
      simp [hmem, hfb]

/-- C4 counterexample: a name rejected by the filter is not recorded, so a
later `register_realm` with the same id consults the filter again — after two
calls with an always-rejecting filter the filter has been invoked twice on
the same name, refuting "never re-invokes the filter callback on that
name". -/
theorem filtered_name_reevaluated_counterexample :
    (register_realm sample_env reject_all NotifierState.initial "a" "n").filter_calls =
      ["n"] ∧
    (register_realm sample_env reject_all
        (register_realm sample_env reject_all NotifierState.initial "a" "n")
        "a" "n").filter_calls = ["n", "n"] := by
  constructor <;> rfl

/-- C4 (amended): a rejection is not recorded. A later `register_realm` with
the same id performs no registration only because it consults the filter
again: each such call re-invokes the filter on the name and, as long as the
filter still rejects, leaves the watch entries, the delivery queue and the
transaction callbacks unchanged. -/
theorem register_realm_rejection_not_final (env : RealmEnv) (filter : String → Bool)
    (s : NotifierState) (id name : String)
    (hmem : id ∉ s.listen_entries) (hf : filter name = false) :
    register_realm env filter s id name =
      { s with filter_calls := s.filter_calls ++ [name] } ∧
    register_realm env filter (register_realm env filter s id name) id name =
      { s with filter_calls := s.filter_calls ++ [name, name] } := by
  have h1 : register_realm env filter s id name =
      { s with filter_calls := s.filter_calls ++ [name] } := by
    unfold register_realm
    simp [hmem, hf]
  refine ⟨h1, ?_⟩
  rw [h1]
  unfold register_realm
  simp [hmem, hf]

/-- Witness for C4 (amended): two rejected calls on a fresh notifier leave
only two filter invocations behind. -/
theorem register_realm_rejection_not_final_witness :
    ("a" ∉ NotifierState.initial.listen_entries) ∧ reject_all "n" = false ∧
    register_realm sample_env reject_all
        (register_realm sample_env reject_all NotifierState.initial "a" "n") "a" "n" =
      { NotifierState.initial with filter_calls := ["n", "n"] } :=
  ⟨by simp [NotifierState.initial], rfl,
   (register_realm_rejection_not_final sample_env reject_all NotifierState.initial "a" "n"
      (by simp [NotifierState.initial]) rfl).2⟩

/-- C2 counterexample: after the first delivery (`m_first` already false), a
delivery whose change-set is empty re-enumerates every existing row — the
registration callback is invoked for a row that is in no insertion list,
refuting "invoked exactly for the rows listed in insertions". -/
theorem admin_empty_changeset_counterexample :
    admin_start_callback false [("a", "p")] empty_changeset = ([("a", "p")], false) ∧
    empty_changeset.insertions = [] := ⟨rfl, rfl⟩

/-- C2 (amended): for every delivery after the first one whose change-set is
non-empty, the registration callback is invoked exactly for the rows listed in
the change-set's insertions — rows only in modifications or deletions and
rows already present cause no invocation. A post-first delivery with an empty
change-set instead re-enumerates every row. -/
theorem admin_subsequent_delivery_insertions_only
    (table : List (String × String)) (changes : CollectionChangeSet)
    (h : changes.isEmptyCC = false) :
    admin_start_callback false table changes =
      (changes.insertions.filterMap (fun i => table.get? i), false) := by
  unfold admin_start_callback
  simp [h]

/-- Witness for C2 (amended): with rows a and b present, an insertion of row
index 1 and a modification of row index 0, only row b is re-registered. -/
theorem admin_subsequent_delivery_insertions_only_witness :
    admin_start_callback false [("a", "p"), ("b", "q")]
        { insertions := [1], deletions := [], modifications := [0] } =
      ([("b", "q")], false) := by
  rw [admin_subsequent_delivery_insertions_only _ _ (by rfl)]
  rfl

/-- C1 counterexample: the worker keeps a job with no tracked changes when
the job realm's group is empty, pushing onto the delivery queue a
notification with empty `per_table_changes` and the old version set —
refuting the claimed suppression invariant. -/
theorem suppression_invariant_counterexample :
    calculate_job empty_group_job = some empty_group_notification ∧
    empty_group_notification.changes = [] ∧
    empty_group_notification.old_version = some 3 := ⟨rfl, rfl, rfl⟩

/-- C1 (amended): a worker notification with empty `per_table_changes` can
only come from a job whose source group is empty, and then it carries the old
version set to the job's from-version; when the source group is non-empty,
every worker notification has non-empty changes; registration seeds have
empty changes and the old version unset. -/
theorem queued_notification_suppression (j : RealmToCalculate) (n : ChangeNotification)
    (hc : calculate_job j = some n) :
    (n.changes = [] → j.realm.group_is_empty = true ∧ n.old_version = some j.realm.version) ∧
    (j.realm.group_is_empty = false → n.changes ≠ []) ∧
    (∀ realm : SharedRealm,
      (seed_notification realm).changes = [] ∧ (seed_notification realm).old_version = none) := by
  obtain ⟨hold, -, hch, -⟩ := calculate_job_eq_some hc
  refine ⟨?_, ?_, fun realm => ⟨rfl, rfl⟩⟩
  · intro hnil
    refine ⟨?_, hold⟩
    unfold calculate_job at hc
    by_cases hge : j.realm.group_is_empty
    · exact hge
    · rw [hch] at hnil
      simp [List.isEmpty_iff.mpr hnil, hge] at hc
  · intro hge hnil
    unfold calculate_job at hc
    rw [hch] at hnil
    simp [List.isEmpty_iff.mpr hnil, hge] at hc

/-- Witness for C1 (amended) at the empty-group job. -/
theorem queued_notification_suppression_witness :
    empty_group_job.realm.group_is_empty = true ∧
    empty_group_notification.old_version = some empty_group_job.realm.version :=
  (queued_notification_suppression empty_group_job empty_group_notification rfl).1 rfl

/-- Helper: a detached observer never invokes the user callback again. -/
theorem observer_run_detached (l : List SubObservation) : observer_run false l = [] := by
  induction l with
  | nil => rfl
  | cons o rest ih =>
    unfold observer_run observer_step
    simpa using ih

/-- Helper: each invocation of the attached observer either stays attached
delivering nothing, or detaches delivering once. -/
theorem observer_step_cases (o : SubObservation) :
    observer_step true o = (true, none) ∨
    ∃ d, observer_step true o = (false, some d) := by
  unfold observer_step
  cases o.exn
  · by_cases h0 : o.status = 0
    · left; simp [h0]
    · right
      by_cases h1 : o.status = 1 <;> simp [h0, h1]
  · right; simp

/-- C8: over any sequence of observed changes, the `register_query` observer
delivers to the user callback at most once; an invocation with status 0
delivers nothing and stays attached; status 1 delivers the matched rows with
no error and detaches; any other status delivers no results and an error
carrying `error_message` and detaches; an observer error delivers that error
and detaches; and a detached observer never delivers again. -/
theorem subscription_observer_terminal_once :
    (∀ l : List SubObservation, (observer_run true l).length ≤ 1) ∧
    (∀ (a : Bool) (o : SubObservation), o.exn = none → o.status = 0 →
      observer_step a o = (a, none)) ∧
    (∀ o : SubObservation, o.exn = none → o.status = 1 →
      observer_step true o = (false, some { results := some o.match_list, error := none })) ∧
    (∀ o : SubObservation, o.exn = none → o.status ≠ 0 → o.status ≠ 1 →
      observer_step true o = (false, some { results := none, error := some o.error_message })) ∧
    (∀ (e : String) (o : SubObservation), o.exn = some e →
      observer_step true o = (false, some { results := none, error := some e })) ∧
    (∀ l : List SubObservation, observer_run false l = []) := by
  refine ⟨?_, ?_, ?_, ?_, ?_, observer_run_detached⟩
  · intro l
    induction l with
    | nil => simp [observer_run]
    | cons o rest ih =>
      rcases observer_step_cases o with h | ⟨d, h⟩
      · unfold observer_run
        rw [h]
        simpa using ih
      · unfold observer_run
        rw [h]
        simp [observer_run_detached]
  · intro a o he h0
    cases a <;> unfold observer_step <;> simp [he, h0]
  · intro o he h1
    unfold observer_step
    simp [he, h1]
  · intro o he h0 h1
    unfold observer_step
    simp [he, h0, h1]
  · intro e o he
    unfold observer_step
    simp [he]

/-- Witness for C8: a status-0 observation followed by a successful one
yields exactly the single successful delivery. -/
theorem subscription_observer_terminal_once_witness :
    observer_step true success_observation =
      (false, some { results := some [5, 9], error := none }) ∧
    (observer_run true [{ exn := none, status := 0, error_message := "", match_list := [] },
                        success_observation]).length ≤ 1 :=
  ⟨subscription_observer_terminal_once.2.2.1 success_observation rfl rfl,
   subscription_observer_terminal_once.1 _⟩

/-- Helper: dropping the first job keeps the job stream chained. -/
theorem jobs_chained_tail {j : RealmToCalculate} {rest : List RealmToCalculate}
    (h : jobs_chained (j :: rest)) : jobs_chained rest :=
  ⟨fun k hk => h.1 k (List.mem_cons_of_mem _ hk), h.2.tail⟩

/-- Helper: in a chained job stream whose first job starts at or above `lo`,
every notification the worker emits has both its old-side and its new version
at or above `lo`. -/
theorem pipeline_lower_bound :
    ∀ (jobs : List RealmToCalculate) (lo : Nat),
      jobs_chained jobs →
      (∀ j, jobs.head? = some j → lo ≤ j.realm.version) →
      ∀ n ∈ jobs.filterMap calculate_job, lo ≤ notif_old_key n ∧ lo ≤ n.new_version := by
  intro jobs
  induction jobs with
  | nil =>
    intro lo _ _ n hn
    simp at hn
  | cons j rest ih =>
    intro lo hchain hhead n hn
    have hj : lo ≤ j.realm.version := hhead j rfl
    have hjspan : j.realm.version ≤ j.target_version := hchain.1 j (List.mem_cons_self j rest)
    have hresthead : ∀ k, rest.head? = some k → lo ≤ k.realm.version := by
      intro k hk
      have hlink := (List.chain'_cons'.mp hchain.2).1 k (by rw [hk]; rfl)
      rw [hlink]
      exact le_trans hj hjspan
    rw [List.filterMap_cons] at hn
    cases hc : calculate_job j with
    | none =>
      rw [hc] at hn
      exact ih lo (jobs_chained_tail hchain) hresthead n hn
    | some m =>
      rw [hc] at hn
      rcases List.mem_cons.mp hn with hnm | hn2
      · subst hnm
        obtain ⟨hold, hnew, -, -⟩ := calculate_job_eq_some hc
        constructor
        · rw [notif_old_key, hold]
          exact hj
        · rw [hnew]
          exact le_trans hj hjspan
      · exact ih lo (jobs_chained_tail hchain) hresthead n hn2

/-- Helper: the worker's output for a chained job stream is `notif_le`
chained. -/
theorem pipeline_chain :
    ∀ jobs : List RealmToCalculate, jobs_chained jobs →
      List.Chain' notif_le (jobs.filterMap calculate_job) := by
  intro jobs
  induction jobs with
  | nil =>
    intro _
    simp
  | cons j rest ih =>
    intro hchain
    rw [List.filterMap_cons]
    cases hc : calculate_job j with
    | none => exact ih (jobs_chained_tail hchain)
    | some m =>
      rw [List.chain'_cons']
      refine ⟨?_, ih (jobs_chained_tail hchain)⟩
      intro y hy
      have hymem : y ∈ rest.filterMap calculate_job := List.mem_of_mem_head? hy
      have hresthead : ∀ k, rest.head? = some k → j.target_version ≤ k.realm.version := by
        intro k hk
        have hlink := (List.chain'_cons'.mp hchain.2).1 k (by rw [hk]; rfl)
        rw [hlink]
      have hbound := pipeline_lower_bound rest j.target_version
        (jobs_chained_tail hchain) hresthead y hymem
      obtain ⟨-, hnew, -, -⟩ := calculate_job_eq_some hc
      exact ⟨by rw [hnew]; exact hbound.1, by rw [hnew]; exact hbound.2⟩

/-- Helper: the whole per-file delivery queue (seed plus worker output) is
`notif_le` chained under the spec's ordering assumptions. -/
theorem file_pipeline_chain (seed : Option SharedRealm) (jobs : List RealmToCalculate)
    (h : pipeline_ordered_input seed jobs) :
    List.Chain' notif_le (file_pipeline seed jobs) := by
  obtain ⟨hchain, hseed⟩ := h
  cases seed with
  | none => simpa [file_pipeline] using pipeline_chain jobs hchain
  | some realm =>
    rw [file_pipeline, List.chain'_append]
    refine ⟨by simp, pipeline_chain jobs hchain, ?_⟩
    intro a ha b hb
    have hb2 : b ∈ jobs.filterMap calculate_job := List.mem_of_mem_head? hb
    have ha2 : seed_notification realm = a := by simpa using ha
    subst ha2
    have hlow := pipeline_lower_bound jobs realm.version hchain
      (fun j hj => hseed realm j rfl hj) b hb2
    exact ⟨hlow.1, hlow.2⟩

/-- Helper: when no job is suppressed, consecutive worker notifications abut
exactly: the later one's old version equals the earlier one's new version. -/
theorem pipeline_chain_exact :
    ∀ jobs : List RealmToCalculate,
      List.Chain' (fun a b => b.realm.version = a.target_version) jobs →
      (∀ j ∈ jobs, calculate_job j ≠ none) →
      List.Chain' (fun a b => b.old_version = some a.new_version)
        (jobs.filterMap calculate_job) := by
  intro jobs
  induction jobs with
  | nil =>
    intro _ _
    simp
  | cons j rest ih =>
    intro hlink hnd
    rw [List.filterMap_cons]
    cases hc : calculate_job j with
    | none => exact absurd hc (hnd j (List.mem_cons_self j rest))
    | some m =>
      rw [List.chain'_cons']
      refine ⟨?_, ih hlink.tail (fun k hk => hnd k (List.mem_cons_of_mem _ hk))⟩
      intro y hy
      cases rest with
      | nil => simp at hy
      | cons k rest2 =>
        rw [List.filterMap_cons] at hy
        cases hck : calculate_job k with
        | none => exact absurd hck (hnd k (by simp))
        | some y2 =>
          rw [hck] at hy
          have hy2 : y2 = y := by simpa using hy
          subst hy2
          obtain ⟨holdk, -, -, -⟩ := calculate_job_eq_some hck
          obtain ⟨-, hnewj, -, -⟩ := calculate_job_eq_some hc
          have hkj : k.realm.version = j.target_version := (List.chain'_cons.mp hlink).1
          rw [holdk, hkj, hnewj]

/-- C3 (amended): for one watched file, under the spec's ordering assumptions
(commit callbacks in commit order, FIFO work queue, single worker, FIFO
delivery queue — modelled as a version-chained job stream behind an optional
registration seed), any earlier delivered notification N1 and later N2
satisfy N1.new ≤ N2.old; and N2.old = N1.new holds between consecutive
deliveries except across a registration seed or a suppressed job — in
particular it holds throughout the worker output whenever no job is
suppressed. -/
theorem pipeline_version_ordering (seed : Option SharedRealm)
    (jobs : List RealmToCalculate) (h : pipeline_ordered_input seed jobs) :
    List.Pairwise (fun a b => ∀ w, b.old_version = some w → a.new_version ≤ w)
      (file_pipeline seed jobs) ∧
    ((∀ j ∈ jobs, calculate_job j ≠ none) →
      List.Chain' (fun a b => b.old_version = some a.new_version)
        (jobs.filterMap calculate_job)) := by
  constructor
  · have hp := List.chain'_iff_pairwise.mp (file_pipeline_chain seed jobs h)
    refine List.Pairwise.imp ?_ hp
    intro a b hab w hw
    have hk : notif_old_key b = w := by
      unfold notif_old_key
      rw [hw]
      rfl
    rw [← hk]
    exact hab.1
  · intro hnd
    exact pipeline_chain_exact jobs h.1.2 hnd

/-- Witness for C3 (amended) at a seeded one-job pipeline with no
suppression. -/
theorem pipeline_version_ordering_witness :
    List.Pairwise (fun a b => ∀ w, b.old_version = some w → a.new_version ≤ w)
      (file_pipeline (some sample_realm) [chain_job3]) ∧
    List.Chain' (fun a b => b.old_version = some a.new_version)
      ([chain_job3].filterMap calculate_job) := by
  have h := pipeline_version_ordering (some sample_realm) [chain_job3]
    ⟨⟨by decide, List.chain'_singleton _⟩, by
      intro realm j h1 h2
      injection h1 with h1
      injection h2 with h2
      subst h1
      subst h2
      decide⟩
  exact ⟨h.1, h.2 (by
    intro j hj
    have hj2 : j = chain_job3 := by simpa using hj
    subst hj2
    decide)⟩

/-- C3 counterexample: with a suppressed job between two kept ones and no
registration seed involved, the two delivered notifications satisfy
N2.old ≠ N1.new — the equality clause fails across a suppressed job, not only
across a registration seed. -/
theorem pipeline_equality_counterexample :
    file_pipeline none [chain_job1, chain_job2, chain_job3] =
      [chain_notification1, chain_notification3] ∧
    chain_notification3.old_version ≠ some chain_notification1.new_version :=
  ⟨by decide, by decide⟩
